import Mathlib

/-!
Verification of the NTPsecDispatcher repository (dispatchService.py,
dispatcher.py, ToDo/driftMonitor.py, ToDo/driftMonitorDual.py).

The Python sources are shallowly embedded: text is modeled as `List Char`
(Python `str` operations become executable list functions), machine integers
as `Int`/`Nat`, dictionaries as association lists, the memo file as an
explicit file-state type, and fallible operations as `Option`/`Except`.
Nanosecond conversion `int(float(text) * 1e9)` is modeled in exact decimal
arithmetic over the plain decimal strings the time tools emit.
-/

namespace NTPsecDispatcher

/-! ## Models of the Python string operations used by the sources -/

/-- Model of the Python substring test `needle in hay`. -/
def containsSub (needle hay : List Char) : Bool :=
  hay.tails.any (fun t => needle.isPrefixOf t)

/-- Auxiliary recursion for `splitLines`. -/
def splitLinesAux : List Char → List Char → List (List Char)
  | [], acc => if acc.isEmpty then [] else [acc.reverse]
  | c :: rest, acc =>
      if c = '\n' then acc.reverse :: splitLinesAux rest []
      else splitLinesAux rest (c :: acc)

/-- Model of Python `str.splitlines()` for newline-separated text:
every `'\n'` terminates a line, and text after the last newline forms a
final line only when nonempty (so `"".splitlines() == []` and
`"a\n".splitlines() == ["a"]`). -/
def splitLines (s : List Char) : List (List Char) :=
  splitLinesAux s []

/-- Auxiliary recursion for splitting on every character satisfying `p`. -/
def splitOnPAux (p : Char → Bool) : List Char → List Char → List (List Char)
  | [], acc => [acc.reverse]
  | c :: rest, acc =>
      if p c then acc.reverse :: splitOnPAux p rest []
      else splitOnPAux p rest (c :: acc)

/-- Model of Python `str.split(sep)` with a one-character separator:
empty pieces are kept (`"a,".split(",") == ["a", ""]`). -/
def splitOnChar (sep : Char) (s : List Char) : List (List Char) :=
  splitOnPAux (fun c => c = sep) s []

/-- Model of Python `str.split()` (no argument): split on whitespace runs,
dropping empty pieces. -/
def splitWs (s : List Char) : List (List Char) :=
  (splitOnPAux Char.isWhitespace s []).filter (fun w => !w.isEmpty)

/-- Auxiliary recursion for `splitOnce`. -/
def splitOnceAux (sep : Char) : List Char → List Char → Option (List Char × List Char)
  | [], _acc => none
  | c :: rest, acc =>
      if c = sep then some (acc.reverse, rest)
      else splitOnceAux sep rest (c :: acc)

/-- Model of Python `str.split(sep, 1)[1]` access: `some (before, after)`
when the separator occurs, `none` when it does not (in the sources the
`[1]` index then raises `IndexError`, which every call site catches). -/
def splitOnce (sep : Char) (s : List Char) : Option (List Char × List Char) :=
  splitOnceAux sep s []

/-- Model of Python `str.strip()` on the whitespace the tools emit. -/
def trim (s : List Char) : List Char :=
  ((s.dropWhile Char.isWhitespace).reverse.dropWhile Char.isWhitespace).reverse

/-- Model of Python `str.rstrip("s")`: remove every trailing `'s'`. -/
def rstripS (s : List Char) : List Char :=
  (s.reverse.dropWhile (fun c => c = 's')).reverse

/-- Value of a digit string (most significant digit first). -/
def digitsToNat (ds : List Char) : Nat :=
  ds.foldl (fun acc c => acc * 10 + (c.toNat - '0'.toNat)) 0

/-- Nanoseconds contributed by the fractional digit string of a seconds
value: the first nine digits are kept (deeper digits truncate toward zero),
shorter strings are padded with zeros. -/
def fracToNs (frac : List Char) : Nat :=
  digitsToNat (frac.take 9) * 10 ^ (9 - (frac.take 9).length)

/-- Unsigned part of `int(float(text) * 1e9)` for a plain decimal string
`digits[.digits]` (the shape emitted by w32tm / chronyc / ntpq), in exact
decimal arithmetic; `none` models the `ValueError` from `float()` on any
other shape, which every call site catches. -/
def parseUnsignedSecondsToNs (s : List Char) : Option Nat :=
  let ip := s.takeWhile Char.isDigit
  let rest := s.dropWhile Char.isDigit
  match rest with
  | [] => if ip.isEmpty then none else some (digitsToNat ip * 1000000000)
  | '.' :: frac =>
      if frac.all Char.isDigit && !(ip.isEmpty && frac.isEmpty) then
        some (digitsToNat ip * 1000000000 + fracToNs frac)
      else none
  | _ => none

/-- Model of `int(float(text) * 1e9)`: signed nanoseconds, truncation toward
zero (Python `int()` on a float truncates toward zero, which on the decimal
grammar above is truncation of the fractional digits past the ninth). -/
def parseSecondsToNs : List Char → Option Int
  | '-' :: rest => (parseUnsignedSecondsToNs rest).map (fun n => -(n : Int))
  | '+' :: rest => (parseUnsignedSecondsToNs rest).map (fun n => (n : Int))
  | s => (parseUnsignedSecondsToNs s).map (fun n => (n : Int))

/-! ## Decision engine and mode configuration -/

/-- The three corrective-action bands of the decision engine. -/
inductive Decision where
  | NoAction
  | SmallAdjust
  | ForceStep
  deriving DecidableEq

/-- Decision logic of `dispatchService.py` lines 155-162 (and the identical
`driftMonitorDual.py` lines 274-282, `dispatcher.py` lines 149-158 with the
fixed threshold 1e3):
`if threshold < abs(skew) < 1e6` issue the small incremental resync,
`elif 1e8 < abs(skew) < 1e9` issue the forced resync, else no action. -/
def classify (thresholdNs skewNs : Int) : Decision :=
  if thresholdNs < |skewNs| ∧ |skewNs| < 1000000 then Decision.SmallAdjust
  else if 100000000 < |skewNs| ∧ |skewNs| < 1000000000 then Decision.ForceStep
  else Decision.NoAction

/-- Decision logic of the draft `ToDo/driftMonitor.py` lines 96-104, which
differs: `if abs(skew) < 1e6` gradual resync, `elif abs(skew) > 1e8` forced
step, else nothing (so skew 0 triggers a resync and skew above 1e9 a step). -/
def classify_legacy (skewNs : Int) : Decision :=
  if |skewNs| < 1000000 then Decision.SmallAdjust
  else if |skewNs| > 100000000 then Decision.ForceStep
  else Decision.NoAction

/-- The three mode presets of `dispatchService.py` / `driftMonitorDual.py`. -/
inductive Mode where
  | fast
  | ultrafast
  | lazy
  deriving DecidableEq

/-- PRECISION_THRESHOLD_NS per mode: `dispatchService.py` lines 36-45
(1e3 / 1e6 / 1e5) and `driftMonitorDual.py` lines 48-56
(1_000 / 1_000_000 / 100_000). -/
def PRECISION_THRESHOLD_NS : Mode → Int
  | Mode.ultrafast => 1000
  | Mode.lazy => 1000000
  | Mode.fast => 100000

/-! ## Memo store and file-system model

The memo file is modeled by the states the programs themselves can
produce: absent, unparseable by `json.load` (for example truncated by an
interrupted write), or a parsed JSON object of integer values — the only
shape the programs write. -/

/-- State of a file as seen by `json.load`. -/
inductive FileContent where
  | missing
  | corrupt
  | obj (kvs : List (String × Int))
  deriving DecidableEq

/-- The two paths touched by memo persistence. -/
structure FS where
  memoFile : FileContent
  tmpFile : FileContent
  deriving DecidableEq

/-- Atomic file-system steps performed by the two save implementations.
Opening a path with mode "w" truncates it, so a write interrupted after the
open leaves an unparseable file; `os.replace` is a single atomic rename. -/
inductive FSStep where
  | truncTmp
  | writeTmp (kvs : List (String × Int))
  | replaceTmpOverMemo
  | truncMemo
  | writeMemo (kvs : List (String × Int))
  deriving DecidableEq

/-- Effect of one step on the file system. -/
def runStep (fs : FS) : FSStep → FS
  | FSStep.truncTmp => { fs with tmpFile := FileContent.corrupt }
  | FSStep.writeTmp kvs => { fs with tmpFile := FileContent.obj kvs }
  | FSStep.replaceTmpOverMemo =>
      { memoFile := fs.tmpFile, tmpFile := FileContent.missing }
  | FSStep.truncMemo => { fs with memoFile := FileContent.corrupt }
  | FSStep.writeMemo kvs => { fs with memoFile := FileContent.obj kvs }

/-- Run a sequence of file-system steps; an interrupted save is the run of a
proper prefix of its step list. -/
def runSteps (fs : FS) (steps : List FSStep) : FS :=
  steps.foldl runStep fs

/-- Steps of `driftMonitorDual.save_memo` (lines 124-132): write a `.tmp`
file, then `os.replace` it over `memo.json`. -/
def save_memo_steps (kvs : List (String × Int)) : List FSStep :=
  [FSStep.truncTmp, FSStep.writeTmp kvs, FSStep.replaceTmpOverMemo]

/-- Steps of the direct writes `open(MEMO_FILE, "w"); json.dump(...)` in
`dispatcher.py` lines 161-162, `dispatchService.py` lines 164-165 and
`driftMonitor.save_memo` lines 52-55: the canonical path itself is
truncated and rewritten in place. -/
def save_direct_steps (kvs : List (String × Int)) : List FSStep :=
  [FSStep.truncMemo, FSStep.writeMemo kvs]

/-- Translation of `driftMonitorDual.load_memo` (lines 114-122): a missing
file falls through to the empty dict, a `json.load` failure is caught and
also yields the empty dict; a total function. -/
def load_memo : FileContent → List (String × Int)
  | FileContent.missing => []
  | FileContent.corrupt => []
  | FileContent.obj kvs => kvs

/-- Translation of `driftMonitor.load_memo` (lines 45-50), which has the same
semantics (`except: return` the empty dict). -/
def load_memo_legacy : FileContent → List (String × Int)
  | FileContent.missing => []
  | FileContent.corrupt => []
  | FileContent.obj kvs => kvs

/-- Translation of the inline memo read of `dispatcher.py` lines 143-147
(identical in `dispatchService.py` lines 147-151): `os.path.exists` guards
only the missing-file case, and `json.load` runs with no try/except, so an
unparseable file raises `json.JSONDecodeError` out of the coroutine. -/
def dispatcher_load_last_skew : FileContent → Except String Int
  | FileContent.missing => Except.ok 0
  | FileContent.corrupt => Except.error "json.JSONDecodeError"
  | FileContent.obj kvs => Except.ok ((kvs.lookup "last_skew_ns").getD 0)

/-- Model of Python dict assignment `d[k] = v` preserving insertion order. -/
def insertKey (kvs : List (String × Int)) (k : String) (v : Int) :
    List (String × Int) :=
  if kvs.any (fun kv => kv.fst = k) then
    kvs.map (fun kv => if kv.fst = k then (k, v) else kv)
  else kvs ++ [(k, v)]

/-! ## History buffer -/

/-- The last `cap` elements of a list, in order. -/
def keepLast (cap : Nat) (l : List Int) : List Int :=
  l.drop (l.length - cap)

/-- Translation of `collections.deque(maxlen = cap).append x` — the history
buffers `skew_history` of `driftMonitor.py` line 29 (maxlen 50) and
`driftMonitorDual.py` line 62 (maxlen 80): when the buffer is full the
oldest (leftmost) sample is evicted before the append. -/
def dequeAppend (cap : Nat) (buf : List Int) (x : Int) : List Int :=
  if buf.length < cap then buf ++ [x]
  else (buf ++ [x]).drop (buf.length + 1 - cap)

/-- HISTORY_LEN of `driftMonitor.py` line 28. -/
def HISTORY_LEN_legacy : Nat := 50

/-- HISTORY_LEN of `driftMonitorDual.py` line 61. -/
def HISTORY_LEN_dual : Nat := 80

/-! ## Skew probe adapters (parsers over the captured tool stdout) -/

/-- The label searched for by the chrony parser. -/
def chronyLabel : List Char := "Last offset".data

/-- The labels searched for by the Windows status parsers. -/
def offsetLabel : List Char := "Offset".data

/-- Second label of `measure_skew_windows_status`. -/
def localClockLabel : List Char := "Local Clock".data

/-- Numeric-field extraction of one stripchart line in
`driftMonitorDual.measure_skew_windows_stripchart` (lines 154-162):
`last.split(",", 1)[1].strip()`, then `.rstrip("s").strip()`, then
`int(float(text) * 1e9)`; any failure is caught and yields `None`. -/
def stripchartParseLine (last : List Char) : Option Int :=
  match splitOnce ',' last with
  | none => none
  | some (_, after) => parseSecondsToNs (trim (rstripS (trim after)))

/-- Line selection of `driftMonitorDual.measure_skew_windows_stripchart`
(lines 149-153): keep the stripped lines containing a comma and parse the
last one; no candidate line yields `None`. -/
def stripchartFromLines (lines : List (List Char)) : Option Int :=
  match ((lines.filter (fun l => containsSub [','] l)).map trim).getLast? with
  | none => none
  | some last => stripchartParseLine last

/-- Translation of `driftMonitorDual.measure_skew_windows_stripchart`
(lines 139-162), over the stdout returned by `run_cmd`: empty output
returns `None` before any parsing. -/
def measure_skew_windows_stripchart (out : List Char) : Option Int :=
  if out.isEmpty then none else stripchartFromLines (splitLines out)

/-- Match of the regular expression `([-+]?\d+\.\d+)\s*s` anchored at the
head of `s`, returning the captured float text. For this pattern greedy
matching without backtracking coincides with the Python regex engine:
shrinking a digit run can never expose the required `'.'` or `'s'`. -/
def matchFloatSAt (s : List Char) : Option (List Char) :=
  let (sign, rest) :=
    match s with
    | '-' :: r => (['-'], r)
    | '+' :: r => (['+'], r)
    | r => (([] : List Char), r)
  let d1 := rest.takeWhile Char.isDigit
  let r1 := rest.dropWhile Char.isDigit
  if d1.isEmpty then none
  else
    match r1 with
    | '.' :: r2 =>
        let d2 := r2.takeWhile Char.isDigit
        let r3 := r2.dropWhile Char.isDigit
        if d2.isEmpty then none
        else
          match r3.dropWhile Char.isWhitespace with
          | 's' :: _ => some (sign ++ d1 ++ '.' :: d2)
          | _ => none
    | _ => none

/-- Model of `re.search` for the same pattern: leftmost match wins. -/
def searchFloatS : List Char → Option (List Char)
  | [] => none
  | c :: rest =>
      match matchFloatSAt (c :: rest) with
      | some g => some g
      | none => searchFloatS rest

/-- Line scan of `driftMonitorDual.measure_skew_windows_status`
(lines 172-183): on each line containing "Offset" or "Local Clock", search
the float pattern and return its value; a line without a match falls
through to the next line. -/
def statusScan : List (List Char) → Option Int
  | [] => none
  | l :: ls =>
      if containsSub offsetLabel l || containsSub localClockLabel l then
        match searchFloatS l with
        | some ftext => parseSecondsToNs ftext
        | none => statusScan ls
      else statusScan ls

/-- Translation of `driftMonitorDual.measure_skew_windows_status`
(lines 164-183). -/
def measure_skew_windows_status (out : List Char) : Option Int :=
  if out.isEmpty then none else statusScan (splitLines out)

/-- Numeric-field extraction of one chrony tracking line
(`driftMonitorDual.measure_skew_chrony` lines 202-209):
`line.split(":", 1)[1].strip().split()[0]`, then `int(float(value) * 1e9)`;
any failure is caught and yields `None`. -/
def chronyParseLine (line : List Char) : Option Int :=
  match splitOnce ':' line with
  | none => none
  | some (_, after) =>
      match (splitWs (trim after)).head? with
      | none => none
      | some tok => parseSecondsToNs tok

/-- Line selection of `driftMonitorDual.measure_skew_chrony` (lines
201-210): the loop returns on the FIRST line containing "Last offset"
(either its parsed value or `None`); no matching line yields `None`. -/
def chronyFromLines : List (List Char) → Option Int
  | [] => none
  | l :: ls =>
      if containsSub chronyLabel l then chronyParseLine l
      else chronyFromLines ls

/-- Translation of `driftMonitorDual.measure_skew_chrony` (lines 192-210). -/
def measure_skew_chrony (out : List Char) : Option Int :=
  if out.isEmpty then none else chronyFromLines (splitLines out)

/-- Token scan of `driftMonitorDual.measure_skew_ntpd` (lines 220-228): the
loop returns on the first token starting with "offset=". -/
def ntpdScan : List (List Char) → Option Int
  | [] => none
  | t :: ts =>
      if ("offset=".data).isPrefixOf t then
        match splitOnce '=' t with
        | none => none
        | some (_, v) => parseSecondsToNs v
      else ntpdScan ts

/-- Translation of `driftMonitorDual.measure_skew_ntpd` (lines 212-228):
`out.replace(",", " ").split()` then the token scan. -/
def measure_skew_ntpd (out : List Char) : Option Int :=
  if out.isEmpty then none
  else ntpdScan (splitWs (out.map (fun c => if c = ',' then ' ' else c)))

/-- Translation of `driftMonitorDual.measure_skew_windows` (lines 185-190):
stripchart first, status parsing as fallback. -/
def measure_skew_windows (stripchartOut statusOut : List Char) : Option Int :=
  match measure_skew_windows_stripchart stripchartOut with
  | some ns => some ns
  | none => measure_skew_windows_status statusOut

/-- Numeric-field extraction of `driftMonitor.measure_skew_windows`
(lines 81-86): `line.split(":")[1].strip()`, drop every `'s'` when present,
`int(float(parts) * 1e9)`; failure is swallowed by `except: pass`. -/
def legacyParseLine (line : List Char) : Option Int :=
  match (splitOnChar ':' line).get? 1 with
  | none => none
  | some p =>
      let parts := trim p
      let parts := if containsSub ['s'] parts then parts.filter (fun c => c ≠ 's') else parts
      parseSecondsToNs parts

/-- Translation of `driftMonitor.measure_skew_windows` (lines 75-87): `ns`
starts at 0; every "Offset" line that parses overwrites it; parse failures
leave the previous value, so unparseable output yields 0, not a failure. -/
def measure_skew_windows_legacy (out : List Char) : Int :=
  (splitLines out).foldl
    (fun ns line =>
      if containsSub offsetLabel line then
        match legacyParseLine line with
        | some v => v
        | none => ns
      else ns)
    0

/-- Translation of the stripchart parsing in
`dispatcher.py drift_correction_windows` (lines 134-140, identical in
`dispatchService.py` lines 139-145): last line containing a comma, field
`split(",")[1]`, `.strip().replace("s", "")`, `float(...) * 1e9`; the
`except` turns any failure into `None`. -/
def dispatcher_parse_stripchart (output : List Char) : Option Int :=
  match ((splitLines output).filter (fun l => containsSub [','] l)).getLast? with
  | none => none
  | some line =>
      match (splitOnChar ',' line).get? 1 with
      | none => none
      | some f => parseSecondsToNs ((trim f).filter (fun c => c ≠ 's'))

/-! ## Command runner -/

/-- Possible outcomes of one external command execution: normal completion
with captured stdout/stderr, expiry of the `asyncio.wait_for` timeout, or
any other exception from the subprocess machinery. -/
inductive CmdOutcome where
  | ok (stdout stderr : List Char)
  | timeout
  | exc (msg : String)
  deriving DecidableEq

/-- Translation of `driftMonitorDual.run_cmd` (lines 87-109): returns the
stripped stdout text plus the log lines it emits. Both the timeout and the
generic exception are caught inside the function, logged, and mapped to the
empty string, so the function is total at its interface — no outcome
propagates an exception to the caller. Interpolated values are omitted from
the modeled log text. -/
def runCmd (cmd : String) : CmdOutcome → List Char × List String
  | CmdOutcome.ok out err =>
      let out_s := trim out
      let err_s := trim err
      (out_s, if err_s.isEmpty then [] else ["[CMD-ERR] " ++ cmd ++ " => stderr"])
  | CmdOutcome.timeout => ([], ["[CMD-ERR] Timeout running: " ++ cmd])
  | CmdOutcome.exc _m => ([], ["[CMD-ERR] Exception running: " ++ cmd])

/-! ## Dispatch cycles -/

/-- Observable result of one `driftMonitorDual` Windows cycle. -/
structure WinCycleResult where
  ret : Option Int
  commands : List String
  saved : Bool
  memo : List (String × Int)
  fsMemo : FileContent
  history : List Int
  logs : List String
  deriving DecidableEq

/-- Translation of `driftMonitorDual.drift_check_and_correct_windows`
(lines 257-283). `measured` is the result of `measure_skew_windows`; when it
is `None` the function logs a warning and returns before the memo update,
the save, the history append and the decision. On a measurement the memo is
updated and saved (success path of the best-effort save), the sample is
appended to the 80-deep history, and the decision bands choose the command.
Interpolated values are omitted from the modeled log text. -/
def drift_check_and_correct_windows (t : Int) (measured : Option Int)
    (memo : List (String × Int)) (fsMemo : FileContent) (history : List Int) :
    WinCycleResult :=
  match measured with
  | none =>
      { ret := none, commands := [], saved := false, memo := memo,
        fsMemo := fsMemo, history := history,
        logs := ["[WARN] Could not measure skew on Windows"] }
  | some skew =>
      let memo1 := insertKey memo "last_skew_ns" skew
      let fs1 := (runSteps { memoFile := fsMemo, tmpFile := FileContent.missing }
        (save_memo_steps memo1)).memoFile
      let hist1 := dequeAppend HISTORY_LEN_dual history skew
      let mLog := "[MEASURE] Windows skew (previous) ns"
      match classify t skew with
      | Decision.SmallAdjust =>
          { ret := some skew, commands := ["w32tm /resync /nowait"], saved := true,
            memo := memo1, fsMemo := fs1, history := hist1,
            logs := [mLog, "[ACTION] w32tm /resync /nowait issued (small adjustment)"] }
      | Decision.ForceStep =>
          { ret := some skew, commands := ["w32tm /resync /force"], saved := true,
            memo := memo1, fsMemo := fs1, history := hist1,
            logs := [mLog, "[ACTION] w32tm /resync /force issued (forced step)"] }
      | Decision.NoAction =>
          { ret := some skew, commands := [], saved := true,
            memo := memo1, fsMemo := fs1, history := hist1,
            logs := [mLog, "[DECISION] No adjustment required for Windows (skew within negligible range)"] }

/-- Observable result of one `driftMonitor.py` (draft) Windows cycle. -/
structure LegacyCycleResult where
  commands : List String
  saved : Bool
  lastRead : Int
  memo : List (String × Int)
  fsMemo : FileContent
  history : List Int
  logs : List String
  deriving DecidableEq

/-- Translation of `driftMonitor.drift_correction_windows` (lines 89-107)
over the stdout of `w32tm /query /status`: the skew is whatever
`measure_skew_windows` produced (0 on parse failure), the sample is always
appended, the legacy decision logic always runs, and the memo is always
saved — there is no probe-failure path and no probe-failure log line.
Interpolated values are omitted from the modeled log text. -/
def drift_correction_windows_legacy (out : List Char)
    (memo : List (String × Int)) (fsMemo : FileContent) (history : List Int) :
    LegacyCycleResult :=
  let skew := measure_skew_windows_legacy out
  let last := (memo.lookup "last_skew").getD 0
  let hist1 := dequeAppend HISTORY_LEN_legacy history skew
  let (cmds, dLog) :=
    match classify_legacy skew with
    | Decision.SmallAdjust =>
        (["w32tm /resync /nowait"], "[INFO] Small skew: gradual resync")
    | Decision.ForceStep =>
        (["w32tm /resync /force"], "[WARN] Large skew: forced step")
    | Decision.NoAction => (([] : List String), "[INFO] Skew negligible; no action")
  let memo1 := insertKey memo "last_skew" skew
  let fs1 := (runSteps { memoFile := fsMemo, tmpFile := FileContent.missing }
    (save_direct_steps memo1)).memoFile
  { commands := cmds, saved := true, lastRead := last, memo := memo1,
    fsMemo := fs1, history := hist1,
    logs := ["[INFO] Current skew ns (last ns)", dLog] }

/-- Observable result of one `dispatcher.py drift_correction_windows` run. -/
structure DispCycleResult where
  commands : List String
  saved : Bool
  fsMemo : FileContent
  logs : List String
  deriving DecidableEq

/-- Translation of `dispatcher.py drift_correction_windows` (lines 130-162):
parse the stripchart output (warning logged on failure), read the memo file
with an unguarded `json.load` (`Except.error` models the uncaught raise on
an unparseable file), and only when a skew was parsed take the decision with
the fixed 1e3 threshold and rewrite the memo file in place with the single
key "last_skew_ns". When parsing failed, the decision, the commands and the
memo write are all skipped. Interpolated values are omitted from the
modeled log text. -/
def dispatcher_drift_correction_windows (output : List Char)
    (fsMemo : FileContent) : Except String DispCycleResult :=
  let skewOpt := dispatcher_parse_stripchart output
  let parseLogs :=
    match skewOpt with
    | none => ["[WARN] Could not parse skew, defaulting to forced resync"]
    | some _ => ([] : List String)
  match dispatcher_load_last_skew fsMemo with
  | Except.error e => Except.error e
  | Except.ok _last =>
      match skewOpt with
      | none =>
          Except.ok { commands := [], saved := false, fsMemo := fsMemo, logs := parseLogs }
      | some skew =>
          let (cmds, dLog) :=
            match classify 1000 skew with
            | Decision.SmallAdjust =>
                (["w32tm /resync /nowait"],
                 "[INFO] Applied precise incremental resync for small skew")
            | Decision.ForceStep =>
                (["w32tm /resync /force"],
                 "[INFO] Applied forced resync for large skew")
            | Decision.NoAction =>
                (([] : List String), "[INFO] Skew negligible; no adjustment needed")
          let fs1 := (runSteps { memoFile := fsMemo, tmpFile := FileContent.missing }
            (save_direct_steps [("last_skew_ns", skew)])).memoFile
          Except.ok { commands := cmds, saved := true, fsMemo := fs1,
                      logs := parseLogs ++ ["[INFO] Current skew ns (last ns)", dLog] }

/-! ## Command-line mode selection -/

/-- Translation of the argparse configuration of `dispatchService.py` lines
19-22 and `driftMonitorDual.py` lines 28-33:
`choices = fast / ultrafast / lazy`, default "fast" when the flag is
absent. On an invalid choice argparse prints an error and exits the process
with status 2. -/
def parse_mode : Option String → Except (Nat × String) String
  | none => Except.ok "fast"
  | some s =>
      if s = "fast" ∨ s = "ultrafast" ∨ s = "lazy" then Except.ok s
      else Except.error (2, "argument --mode: invalid choice")

/-- Translation of `driftMonitor.py` lines 19-21: MODE defaults to "fast"
and is changed only when the exact token "--mode=ultrafast" or
"--mode=lazy" appears in `sys.argv`; any other `--mode=...` value is
ignored without any message. -/
def legacy_mode_of (argv : List String) : String :=
  if argv.contains "--mode=ultrafast" then "ultrafast"
  else if argv.contains "--mode=lazy" then "lazy"
  else "fast"

/-- Startup outcome of `driftMonitor.py`: mode selection never rejects any
command line, so startup always proceeds (there is no exit path). -/
def legacy_startup (argv : List String) : Except (Nat × String) String :=
  Except.ok (legacy_mode_of argv)

/-! ## Helper lemmas -/

/-- Characterization of the SmallAdjust band of `classify`. -/
lemma classify_eq_small_iff (t s : Int) :
    classify t s = Decision.SmallAdjust ↔ t < |s| ∧ |s| < 1000000 := by
  unfold classify
  split_ifs with h1 h2
  exacts [iff_of_true rfl h1,
    iff_of_false (by decide) h1,
    iff_of_false (by decide) h1]

/-- Characterization of the ForceStep band of `classify`: the guard of the
`elif` is reached exactly when the first band misses, and the two bands are
disjoint, so the strict 1e8/1e9 bounds characterize it for every threshold. -/
lemma classify_eq_force_iff (t s : Int) :
    classify t s = Decision.ForceStep ↔ 100000000 < |s| ∧ |s| < 1000000000 := by
  unfold classify
  split_ifs with h1 h2
  · exact iff_of_false (by decide)
      (fun hc => by linarith [h1.2, hc.1])
  · exact iff_of_true rfl h2
  · exact iff_of_false (by decide) h2

/-- Characterization of the NoAction band of `classify`. -/
lemma classify_eq_no_iff (t s : Int) :
    classify t s = Decision.NoAction ↔
      ¬(t < |s| ∧ |s| < 1000000) ∧ ¬(100000000 < |s| ∧ |s| < 1000000000) := by
  unfold classify
  split_ifs with h1 h2
  · exact iff_of_false (by decide) (fun hc => hc.1 h1)
  · exact iff_of_false (by decide) (fun hc => hc.2 h2)
  · exact iff_of_true rfl ⟨h1, h2⟩

/-- Characterization of the draft decision logic of `driftMonitor.py`. -/
lemma classify_legacy_small_iff (s : Int) :
    classify_legacy s = Decision.SmallAdjust ↔ |s| < 1000000 := by
  unfold classify_legacy
  split_ifs with h1 h2
  exacts [iff_of_true rfl h1,
    iff_of_false (by decide) h1,
    iff_of_false (by decide) h1]

/-- ForceStep band of the draft decision logic of `driftMonitor.py`: any
magnitude above 1e8, with no upper bound. -/
lemma classify_legacy_force_iff (s : Int) :
    classify_legacy s = Decision.ForceStep ↔ 100000000 < |s| := by
  unfold classify_legacy
  split_ifs with h1 h2
  · exact iff_of_false (by decide) (fun hc => by linarith)
  · exact iff_of_true rfl h2
  · exact iff_of_false (by decide) h2

/-! ## Claim C1 — decision bands and boundary values -/

/-- Claim C1 counterexample: the claim states that `abs(s) = t + 1` yields
`SmallAdjust` for every mode threshold `t`, but for the lazy preset the
threshold is 1_000_000, and `abs(s) = 1_000_001` misses both strict bands,
so the code yields `NoAction`. -/
theorem classify_lazy_succ_counterexample :
    classify (PRECISION_THRESHOLD_NS Mode.lazy)
      (PRECISION_THRESHOLD_NS Mode.lazy + 1) ≠ Decision.SmallAdjust := by
  decide

/-- Claim C1 (amended): for every preset threshold and every signed skew,
`classify` yields `SmallAdjust` iff `t < abs(s) < 1e6` and `ForceStep` iff
`1e8 < abs(s) < 1e9`, with `NoAction` otherwise; the boundary magnitudes
`t`, 1e6, 1e8 and 1e9 all yield `NoAction`; `abs(s) = t + 1` yields
`SmallAdjust` for the fast and ultrafast presets but `NoAction` for lazy
(whose threshold already sits on the 1e6 band edge); and the draft decision
logic of `driftMonitor.py` uses different bands: `SmallAdjust` for every
magnitude below 1e6 (including 0) and `ForceStep` for every magnitude above
1e8 (including at and above 1e9). -/
theorem classify_bands (m : Mode) (s : Int) :
    (classify (PRECISION_THRESHOLD_NS m) s = Decision.SmallAdjust ↔
      PRECISION_THRESHOLD_NS m < |s| ∧ |s| < 1000000) ∧
    (classify (PRECISION_THRESHOLD_NS m) s = Decision.ForceStep ↔
      100000000 < |s| ∧ |s| < 1000000000) ∧
    (classify (PRECISION_THRESHOLD_NS m) s = Decision.NoAction ↔
      ¬(PRECISION_THRESHOLD_NS m < |s| ∧ |s| < 1000000) ∧
      ¬(100000000 < |s| ∧ |s| < 1000000000)) ∧
    classify (PRECISION_THRESHOLD_NS m) (PRECISION_THRESHOLD_NS m) = Decision.NoAction ∧
    classify (PRECISION_THRESHOLD_NS m) (-PRECISION_THRESHOLD_NS m) = Decision.NoAction ∧
    classify (PRECISION_THRESHOLD_NS m) 1000000 = Decision.NoAction ∧
    classify (PRECISION_THRESHOLD_NS m) (-1000000) = Decision.NoAction ∧
    classify (PRECISION_THRESHOLD_NS m) 100000000 = Decision.NoAction ∧
    classify (PRECISION_THRESHOLD_NS m) (-100000000) = Decision.NoAction ∧
    classify (PRECISION_THRESHOLD_NS m) 1000000000 = Decision.NoAction ∧
    classify (PRECISION_THRESHOLD_NS m) (-1000000000) = Decision.NoAction ∧
    classify (PRECISION_THRESHOLD_NS Mode.fast)
      (PRECISION_THRESHOLD_NS Mode.fast + 1) = Decision.SmallAdjust ∧
    classify (PRECISION_THRESHOLD_NS Mode.ultrafast)
      (PRECISION_THRESHOLD_NS Mode.ultrafast + 1) = Decision.SmallAdjust ∧
    classify (PRECISION_THRESHOLD_NS Mode.lazy)
      (PRECISION_THRESHOLD_NS Mode.lazy + 1) = Decision.NoAction ∧
    (classify_legacy s = Decision.SmallAdjust ↔ |s| < 1000000) ∧
    (classify_legacy s = Decision.ForceStep ↔ 100000000 < |s|) := by
  refine ⟨classify_eq_small_iff _ _, classify_eq_force_iff _ _, classify_eq_no_iff _ _,
    ?_, ?_, ?_, ?_, ?_, ?_, ?_, ?_, by decide, by decide, by decide,
    classify_legacy_small_iff _, classify_legacy_force_iff _⟩ <;>
    cases m <;> decide

/-! ## Claim C2 — preset thresholds versus the 1e6 band edge -/

/-- Claim C2 counterexample: the lazy preset sets
`PRECISION_THRESHOLD_NS = 1_000_000`, which is not strictly below
1_000_000. -/
theorem lazy_threshold_not_lt :
    ¬ PRECISION_THRESHOLD_NS Mode.lazy < 1000000 := by decide

/-- Claim C2 (amended): the fast and ultrafast presets have
`precisionThresholdNs` strictly below 1_000_000, while the lazy preset sets
it to exactly 1_000_000 (so for every preset the threshold is at most
1_000_000). -/
theorem precision_threshold_bounds :
    PRECISION_THRESHOLD_NS Mode.fast < 1000000 ∧
    PRECISION_THRESHOLD_NS Mode.ultrafast < 1000000 ∧
    PRECISION_THRESHOLD_NS Mode.lazy = 1000000 ∧
    ∀ m : Mode, PRECISION_THRESHOLD_NS m ≤ 1000000 := by
  refine ⟨by decide, by decide, by decide, ?_⟩
  intro m
  cases m <;> decide

/-! ## Claim C3 — probe failure leaves the cycle inert -/

/-- Claim C3 counterexample: in `driftMonitor.py` a probe whose output
cannot be parsed (here: empty tool output) yields skew 0, and the cycle
still takes a decision, issues the gradual-resync command, and saves the
memo, with no probe-failure log line — contradicting the claim that no
decision, command, or memo save happens in a failed-probe cycle. -/
theorem legacy_cycle_acts_on_unparsed_output :
    (drift_correction_windows_legacy [] [] (FileContent.obj []) []).commands =
      ["w32tm /resync /nowait"] ∧
    (drift_correction_windows_legacy [] [] (FileContent.obj []) []).saved = true := by
  decide

/-- Claim C3 (amended): in `driftMonitorDual.drift_check_and_correct_windows`
a failed probe (`measured = none`) returns `None` immediately: no command is
issued, the memo (in memory and on disk) and the history are untouched, no
save happens, and exactly the probe-failure warning is logged; likewise
`dispatcher.py drift_correction_windows` with unparseable stripchart output
issues no command and performs no memo write. In `driftMonitor.py`, by
contrast, a parse failure produces skew 0 and the cycle still acts (see the
counterexample). -/
theorem probe_failure_cycle_inert (t : Int) (memo : List (String × Int))
    (f : FileContent) (hist : List Int) (out : List Char)
    (hparse : dispatcher_parse_stripchart out = none)
    (hf : f ≠ FileContent.corrupt) :
    (drift_check_and_correct_windows t none memo f hist).ret = none ∧
    (drift_check_and_correct_windows t none memo f hist).commands = [] ∧
    (drift_check_and_correct_windows t none memo f hist).saved = false ∧
    (drift_check_and_correct_windows t none memo f hist).memo = memo ∧
    (drift_check_and_correct_windows t none memo f hist).fsMemo = f ∧
    (drift_check_and_correct_windows t none memo f hist).history = hist ∧
    (drift_check_and_correct_windows t none memo f hist).logs =
      ["[WARN] Could not measure skew on Windows"] ∧
    ∃ r, dispatcher_drift_correction_windows out f = Except.ok r ∧
      r.commands = [] ∧ r.saved = false ∧ r.fsMemo = f := by
  refine ⟨rfl, rfl, rfl, rfl, rfl, rfl, rfl, ?_⟩
  cases f with
  | corrupt => exact absurd rfl hf
  | missing =>
      simp only [dispatcher_drift_correction_windows, hparse,
        dispatcher_load_last_skew]
      exact ⟨_, rfl, rfl, rfl, rfl⟩
  | obj kvs =>
      simp only [dispatcher_drift_correction_windows, hparse,
        dispatcher_load_last_skew]
      exact ⟨_, rfl, rfl, rfl, rfl⟩

/-- Witness for `probe_failure_cycle_inert` at a concrete failed cycle. -/
theorem probe_failure_cycle_inert_witness :
    (dispatcher_parse_stripchart [] = none ∧
      FileContent.missing ≠ FileContent.corrupt) ∧
    ((drift_check_and_correct_windows 1000 none [] FileContent.missing []).commands = [] ∧
      (drift_check_and_correct_windows 1000 none [] FileContent.missing []).saved = false) :=
  ⟨⟨by decide, by decide⟩,
    ⟨(probe_failure_cycle_inert 1000 [] FileContent.missing [] []
        (by decide) (by decide)).2.1,
      (probe_failure_cycle_inert 1000 [] FileContent.missing [] []
        (by decide) (by decide)).2.2.1⟩⟩

/-! ## Claim C4 — atomicity of the memo write -/

/-- Claim C4 counterexample: the memo writes of `dispatcher.py` lines
161-162 and `dispatchService.py` lines 164-165 (and
`driftMonitor.save_memo`) open the canonical path directly with mode "w".
Interrupting right after the open (prefix of length 1 of the step list)
leaves the canonical file truncated and unparseable, so a subsequent load
yields the default, not the previous memo — refuting the claim that saving
always writes a temporary path and atomically replaces the canonical one. -/
theorem direct_save_interrupted_loses_memo :
    load_memo (runSteps
      { memoFile := FileContent.obj [("last_skew_ns", 5)],
        tmpFile := FileContent.missing }
      ((save_direct_steps [("last_skew_ns", 7)]).take 1)).memoFile ≠
      [("last_skew_ns", 5)] := by
  decide

/-- Claim C4 (amended): `driftMonitorDual.save_memo` is atomic as claimed —
interrupting its step sequence at any point before the `os.replace` step
(any proper prefix of its three steps) leaves the canonical memo file
untouched, so a subsequent `load_memo` still returns the previous valid
memo. The saves in `dispatcher.py`, `dispatchService.py` and
`driftMonitor.py` write the canonical path in place and do not have this
property (see the counterexample). -/
theorem save_memo_atomic (kvs prev : List (String × Int)) (tmp0 : FileContent)
    (k : Nat) (hk : k < 3) :
    load_memo (runSteps { memoFile := FileContent.obj prev, tmpFile := tmp0 }
      ((save_memo_steps kvs).take k)).memoFile = prev := by
  match k, hk with
  | 0, _ => rfl
  | 1, _ => rfl
  | 2, _ => rfl

/-- Witness for `save_memo_atomic`: interruption right before the replace. -/
theorem save_memo_atomic_witness :
    2 < 3 ∧
    load_memo (runSteps
      { memoFile := FileContent.obj [("last_skew_ns", 5)],
        tmpFile := FileContent.missing }
      ((save_memo_steps [("last_skew_ns", 7)]).take 2)).memoFile =
      [("last_skew_ns", 5)] :=
  ⟨by decide, save_memo_atomic [("last_skew_ns", 7)] [("last_skew_ns", 5)]
    FileContent.missing 2 (by decide)⟩

/-! ## Claim C5 — loading the memo -/

/-- Claim C5 counterexample: the inline memo read of `dispatcher.py` lines
143-147 (same in `dispatchService.py`) guards only the missing-file case;
on an unparseable memo file the unguarded `json.load` raises out of the
coroutine instead of yielding the default — so loading the memo can fail. -/
theorem dispatcher_load_corrupt_raises :
    dispatcher_load_last_skew FileContent.corrupt =
      Except.error "json.JSONDecodeError" := rfl

/-- Claim C5 (amended): the dedicated loaders `driftMonitorDual.load_memo`
and `driftMonitor.load_memo` never fail — a missing file and an unparseable
file both yield the default empty dict, and a parsed object is returned as
is. The inline read in `dispatcher.py` / `dispatchService.py` defaults only
on a missing file and raises on an unparseable one (see the
counterexample). -/
theorem load_memo_total_default :
    load_memo FileContent.missing = [] ∧
    load_memo FileContent.corrupt = [] ∧
    load_memo_legacy FileContent.missing = [] ∧
    load_memo_legacy FileContent.corrupt = [] ∧
    (∀ kvs, load_memo (FileContent.obj kvs) = kvs) ∧
    dispatcher_load_last_skew FileContent.missing = Except.ok 0 :=
  ⟨rfl, rfl, rfl, rfl, fun _ => rfl, rfl⟩

/-! ## Claim C6 — history buffer capacity and window -/

/-- Length bound for the last-cap window. -/
lemma keepLast_length_le (cap : Nat) (l : List Int) :
    (keepLast cap l).length ≤ cap := by
  unfold keepLast
  rw [List.length_drop]
  omega

/-- One deque append is exactly the last-cap window of the extended list. -/
lemma dequeAppend_eq_keepLast (cap : Nat) (buf : List Int) (x : Int) :
    dequeAppend cap buf x = keepLast cap (buf ++ [x]) := by
  unfold dequeAppend keepLast
  split_ifs with h
  · have h0 : (buf ++ [x]).length - cap = 0 := by
      simp only [List.length_append, List.length_singleton]; omega
    rw [h0, List.drop_zero]
  · simp [List.length_append]

/-- Taking the last-cap window absorbs an earlier last-cap window. -/
lemma keepLast_append_left (cap : Nat) (l r : List Int) :
    keepLast cap (keepLast cap l ++ r) = keepLast cap (l ++ r) := by
  unfold keepLast
  rcases le_or_lt l.length cap with hc | hc
  · rw [Nat.sub_eq_zero_of_le hc, List.drop_zero]
  · have hd : (l.drop (l.length - cap)).length = cap := by
      rw [List.length_drop]; omega
    rcases le_or_lt r.length cap with hr | hr
    · have hL : (l.drop (l.length - cap) ++ r).length - cap = r.length := by
        rw [List.length_append, hd]; omega
      have hR : (l ++ r).length - cap = l.length - cap + r.length := by
        rw [List.length_append]; omega
      rw [hL, hR, List.drop_append_of_le_length (by rw [hd]; exact hr),
        List.drop_drop, List.drop_append_of_le_length (by omega)]
    · have hL : (l.drop (l.length - cap) ++ r).length - cap
          = (l.drop (l.length - cap)).length + (r.length - cap) := by
        rw [List.length_append, hd]; omega
      have hR : (l ++ r).length - cap = l.length + (r.length - cap) := by
        rw [List.length_append]; omega
      rw [hL, hR, List.drop_append, List.drop_append]

/-- Folding deque appends over a list keeps exactly the last-cap window of
the concatenation. -/
lemma foldl_dequeAppend (cap : Nat) (xs : List Int) :
    ∀ b : List Int, b.length ≤ cap →
      xs.foldl (dequeAppend cap) b = keepLast cap (b ++ xs) := by
  induction xs with
  | nil =>
      intro b hb
      simp [keepLast, Nat.sub_eq_zero_of_le hb]
  | cons x xs ih =>
      intro b hb
      have hlen : (dequeAppend cap b x).length ≤ cap := by
        rw [dequeAppend_eq_keepLast]; exact keepLast_length_le _ _
      rw [List.foldl_cons, ih _ hlen, dequeAppend_eq_keepLast,
        keepLast_append_left]
      simp

/-- Claim C6 (confirmed): pushing any sequence `xs` of more samples than
the capacity into the history buffer (a `deque(maxlen = cap)`, starting
from any buffer within capacity) never lets the length exceed the capacity
at any intermediate point, and afterwards the buffer holds exactly the last
`cap` samples of `xs` in their chronological push order. -/
theorem history_buffer_window (cap : Nat) (b xs : List Int)
    (hb : b.length ≤ cap) (hN : cap < xs.length) :
    (∀ n : Nat, ((xs.take n).foldl (dequeAppend cap) b).length ≤ cap) ∧
    xs.foldl (dequeAppend cap) b = xs.drop (xs.length - cap) := by
  constructor
  · intro n
    rw [foldl_dequeAppend cap _ b hb]
    exact keepLast_length_le _ _
  · rw [foldl_dequeAppend cap xs b hb]
    unfold keepLast
    have h1 : (b ++ xs).length - cap = b.length + (xs.length - cap) := by
      rw [List.length_append]; omega
    rw [h1, List.drop_append]

/-- Witness for `history_buffer_window` at the dual monitor capacity 80 and
81 pushes into an initially empty buffer. -/
theorem history_buffer_window_witness :
    (([] : List Int).length ≤ HISTORY_LEN_dual ∧
      HISTORY_LEN_dual < ((List.range 81).map (fun n => (n : Int))).length) ∧
    ((List.range 81).map (fun n => (n : Int))).foldl
        (dequeAppend HISTORY_LEN_dual) [] =
      ((List.range 81).map (fun n => (n : Int))).drop
        (((List.range 81).map (fun n => (n : Int))).length - HISTORY_LEN_dual) :=
  ⟨⟨by decide, by decide⟩,
    (history_buffer_window HISTORY_LEN_dual [] _ (by decide) (by decide)).2⟩

/-! ## Claim C7 — command-line mode validation -/

/-- Claim C7 counterexample: `driftMonitor.py` given the unknown mode value
"banana" does not fail fast — startup succeeds and the mode silently
defaults to "fast" with no log of the fallback. -/
theorem legacy_mode_silent_default :
    legacy_startup ["--mode=banana"] = Except.ok "fast" := rfl

/-- Claim C7 (amended): the argparse entry points (`dispatchService.py`,
`driftMonitorDual.py`) reject every mode value outside
fast/ultrafast/lazy with exit status 2 and an error message, but
`driftMonitor.py` performs no validation: whenever neither exact token
"--mode=ultrafast" nor "--mode=lazy" occurs in argv it silently runs in
fast mode, whatever unknown mode value was passed. -/
theorem mode_rejection (s : String) (argv : List String)
    (hs : ¬(s = "fast" ∨ s = "ultrafast" ∨ s = "lazy"))
    (h1 : ¬ "--mode=ultrafast" ∈ argv)
    (h2 : ¬ "--mode=lazy" ∈ argv) :
    parse_mode (some s) = Except.error (2, "argument --mode: invalid choice") ∧
    legacy_startup argv = Except.ok "fast" := by
  constructor
  · simp only [parse_mode]
    rw [if_neg hs]
  · simp [legacy_startup, legacy_mode_of, h1, h2]

/-- Witness for `mode_rejection` at the unknown value "banana". -/
theorem mode_rejection_witness :
    (¬("banana" = "fast" ∨ "banana" = "ultrafast" ∨ "banana" = "lazy") ∧
      ¬ "--mode=ultrafast" ∈ (["--mode=banana"] : List String) ∧
      ¬ "--mode=lazy" ∈ (["--mode=banana"] : List String)) ∧
    (parse_mode (some "banana") =
        Except.error (2, "argument --mode: invalid choice") ∧
      legacy_startup ["--mode=banana"] = Except.ok "fast") :=
  ⟨⟨by decide, by decide, by decide⟩,
    mode_rejection "banana" ["--mode=banana"] (by decide) (by decide) (by decide)⟩

/-! ## Claim C8 — which candidate line the parsers select -/

/-- The stripchart parser selects the last comma-containing line. -/
lemma stripchart_last_comma_line (ls : List (List Char)) (l : List Char)
    (hcomma : containsSub [','] l = true) :
    stripchartFromLines (ls ++ [l]) = stripchartParseLine (trim l) := by
  unfold stripchartFromLines
  rw [List.filter_append]
  simp only [List.filter_cons, List.filter_nil, hcomma, if_true]
  rw [List.map_append]
  simp only [List.map_cons, List.map_nil]
  rw [List.getLast?_concat]

/-- The chrony parser returns at the first line containing the label. -/
lemma chrony_first_label_line (pre : List (List Char)) (l : List Char)
    (post : List (List Char)) (hlabel : containsSub chronyLabel l = true)
    (hpre : ∀ x ∈ pre, containsSub chronyLabel x = false) :
    chronyFromLines (pre ++ l :: post) = chronyParseLine l := by
  induction pre with
  | nil => simp [chronyFromLines, hlabel]
  | cons y ys ih =>
      have hy : containsSub chronyLabel y = false := hpre y (by simp)
      simp only [List.cons_append, chronyFromLines, hy, Bool.false_eq_true,
        if_false]
      exact ih (fun x hx => hpre x (by simp [hx]))

/-- Claim C8 counterexample: on chrony tracking output with two
"Last offset" lines, `measure_skew_chrony` returns the value of the FIRST
matching line (0.001 s = 1_000_000 ns), not that of the last matching line
(0.002 s = 2_000_000 ns) — refuting the claim that the last matching line
is selected by every skew parser. -/
theorem chrony_first_line_counterexample :
    measure_skew_chrony
        ("Last offset     : 0.001 seconds\nLast offset     : 0.002 seconds").data =
      some 1000000 ∧
    chronyParseLine ("Last offset     : 0.002 seconds").data = some 2000000 ∧
    measure_skew_chrony
        ("Last offset     : 0.001 seconds\nLast offset     : 0.002 seconds").data ≠
      some 2000000 := by
  exact ⟨by decide, by decide, by decide⟩

/-- Claim C8 (amended): the stripchart parsers (dual
`measure_skew_windows_stripchart`, and the inline parsing of
`dispatcher.py` / `dispatchService.py`) select the last line containing a
comma, as claimed; but `measure_skew_chrony` (and likewise the ntpd and
status parsers) return at the FIRST line containing their label. -/
theorem parser_line_selection (ls pre post : List (List Char))
    (l1 l2 : List Char)
    (hcomma : containsSub [','] l1 = true)
    (hlabel : containsSub chronyLabel l2 = true)
    (hpre : ∀ x ∈ pre, containsSub chronyLabel x = false) :
    stripchartFromLines (ls ++ [l1]) = stripchartParseLine (trim l1) ∧
    chronyFromLines (pre ++ l2 :: post) = chronyParseLine l2 :=
  ⟨stripchart_last_comma_line ls l1 hcomma,
    chrony_first_label_line pre l2 post hlabel hpre⟩

/-- Witness for `parser_line_selection` at concrete one-line inputs. -/
theorem parser_line_selection_witness :
    (containsSub [','] ("a, 0.5s").data = true ∧
      containsSub chronyLabel ("Last offset : 0.5 seconds").data = true ∧
      ∀ x ∈ ([] : List (List Char)), containsSub chronyLabel x = false) ∧
    (stripchartFromLines [("a, 0.5s").data] =
        stripchartParseLine (trim ("a, 0.5s").data) ∧
      chronyFromLines [("Last offset : 0.5 seconds").data] =
        chronyParseLine ("Last offset : 0.5 seconds").data) :=
  ⟨⟨by decide, by decide, by simp⟩,
    parser_line_selection [] [] [] ("a, 0.5s").data
      ("Last offset : 0.5 seconds").data (by decide) (by decide)
      (by simp)⟩

/-! ## Claim C9 — memo round trip -/

/-- Claim C9 (confirmed): for every memo dict, running the save steps to
completion and then loading — the load reads only the persistent file
state, which is exactly what a load after a process restart sees — returns
the same dict. This holds both for the atomic `driftMonitorDual.save_memo`
followed by `load_memo` and for the direct `driftMonitor.save_memo`
followed by `driftMonitor.load_memo`. (Serialization is modeled at the
JSON-value level: textual round-tripping is a property of the external
`json` library.) -/
theorem memo_roundtrip (kvs : List (String × Int)) (fs : FS) :
    load_memo (runSteps fs (save_memo_steps kvs)).memoFile = kvs ∧
    load_memo_legacy (runSteps fs (save_direct_steps kvs)).memoFile = kvs :=
  ⟨rfl, rfl⟩

/-! ## Claim C10 — the command runner fails soft -/

/-- Claim C10 (confirmed): `driftMonitorDual.run_cmd` is total at its
interface — in the embedding every outcome, including timeout and
subprocess exception, maps to a returned string, the failure outcomes map
to the empty string with an error log line — and each `measure_skew_*`
function maps empty command output to `None` instead of raising, also when
composed directly with a failed `run_cmd`. -/
theorem runCmd_fails_soft (cmd msg : String) :
    (runCmd cmd CmdOutcome.timeout).fst = [] ∧
    (runCmd cmd CmdOutcome.timeout).snd = ["[CMD-ERR] Timeout running: " ++ cmd] ∧
    (runCmd cmd (CmdOutcome.exc msg)).fst = [] ∧
    (runCmd cmd (CmdOutcome.exc msg)).snd =
      ["[CMD-ERR] Exception running: " ++ cmd] ∧
    measure_skew_windows_stripchart [] = none ∧
    measure_skew_windows_status [] = none ∧
    measure_skew_chrony [] = none ∧
    measure_skew_ntpd [] = none ∧
    measure_skew_chrony (runCmd cmd CmdOutcome.timeout).fst = none ∧
    measure_skew_windows_stripchart (runCmd cmd (CmdOutcome.exc msg)).fst = none :=
  ⟨rfl, rfl, rfl, rfl, rfl, rfl, rfl, rfl, rfl, rfl⟩

end NTPsecDispatcher
